import Mathlib

/-!
Verification of the SyntheticVisionMath trajectory-prediction and terrain-collision
code. Python floats are embedded as exact rationals or reals; numpy arrays of
length 9 become functions `Fin 9 → ℝ`; the sqlite tile store and the elevation
lookup are modelled as oracles passed in as parameters.
-/

/-! ## Elevation decoding (terrain_checker.py, get_elevation) -/

/-- Embeds the decode step of TerrainChecker.get_elevation:
`elevation = -10000 + ((r * 256 * 256 + g * 256 + b) * 0.1)`. -/
def decode_elevation (r g b : ℕ) : ℚ :=
  -10000 + ((r * 256 * 256 + g * 256 + b : ℕ) : ℚ) * (1/10)

/-! ## Tile fetch (terrain_checker.py, _get_tile_data)

The sqlite store is an oracle mapping (zoom_level, tile_column, tile_row) to
optional tile bytes.  The source flips the row index before querying:
`y = (1 << z) - 1 - y`. -/

/-- Embeds TerrainChecker._get_tile_data: flips the row index and queries the
store with (zoom, x, flipped y). -/
def get_tile_data {α : Type} (store : ℕ → ℤ → ℤ → Option α) (x y : ℤ) (z : ℕ) :
    Option α :=
  store z x ((2 ^ z : ℤ) - 1 - y)

/-! ## Warning levels (terrain_checker.py, get_collision_warning_level)

The function receives a Python float (possibly `inf` or `nan`, since
check_collision can return `float('inf')`) and only ever compares it with `>`
against integer thresholds.  `PyFloat` embeds exactly the values relevant
here: finite doubles (a subset of ℚ), the two infinities, and NaN, with the
IEEE-754 comparison semantics Python uses (every ordered comparison with NaN
is false). -/

inductive PyFloat : Type where
  | finite (q : ℚ)
  | inf
  | ninf
  | nan
deriving DecidableEq

/-- Python `x > c` for a PyFloat `x` and a finite threshold `c`. -/
def PyFloat.gtQ : PyFloat → ℚ → Bool
  | .finite x, c => decide (c < x)
  | .inf, _ => true
  | .ninf, _ => false
  | .nan, _ => false

/-- Embeds TerrainChecker.get_collision_warning_level:
returns 0 if distance > 1000, 1 if distance > 500, 2 if distance > 200,
else 3. -/
def get_collision_warning_level (distance : PyFloat) : ℕ :=
  if distance.gtQ 1000 then 0
  else if distance.gtQ 500 then 1
  else if distance.gtQ 200 then 2
  else 3

/-! ## Warning-report timing (math/test.py, predict_from_point)

predict_from_point invokes the predictor with `dt=0.01` but, when scanning the
returned trajectory, attributes elapsed time `i * 0.1` to the point at index
`i` (`time = i * 0.1`). -/

/-- The integration step predict_from_point passes to predict_trajectory
(`dt=0.01`). -/
def predict_from_point_dt : ℚ := 1/100

/-- The elapsed time predict_from_point reports for the trajectory point at
index `i` (`time = i * 0.1`). -/
def reported_warning_time (i : ℕ) : ℚ := (i : ℚ) * (1/10)

/-! ## Rotation matrix (matrix_to_earth.py, get_rotation_matrix) -/

/-- numpy arctan2: the angle of the point (x, y) in (-π, π], with
arctan2 0 0 = 0.  Embedded as the argument of the complex number x + y·i. -/
noncomputable def arctan2 (y x : ℝ) : ℝ := Complex.arg ⟨x, y⟩

/-- Embeds get_rotation_matrix: body→earth rotation, `R = R_z @ R_y @ R_x`
with the roll / pitch / heading factors written exactly as in the source. -/
noncomputable def get_rotation_matrix (roll pitch heading : ℝ) :
    Matrix (Fin 3) (Fin 3) ℝ :=
  let R_x : Matrix (Fin 3) (Fin 3) ℝ :=
    !![1, 0, 0;
       0, Real.cos roll, -Real.sin roll;
       0, Real.sin roll, Real.cos roll]
  let R_y : Matrix (Fin 3) (Fin 3) ℝ :=
    !![Real.cos pitch, 0, Real.sin pitch;
       0, 1, 0;
       -Real.sin pitch, 0, Real.cos pitch]
  let R_z : Matrix (Fin 3) (Fin 3) ℝ :=
    !![Real.cos heading, -Real.sin heading, 0;
       Real.sin heading, Real.cos heading, 0;
       0, 0, 1]
  R_z * R_y * R_x

/-! ## Flight dynamics (equation_of_flight.py, FlightEquations) -/

/-- FlightEquations.g: acceleration of gravity. -/
def FlightEquations.g : ℝ := 9.81

/-- FlightEquations.R_earth: Earth radius in meters. -/
def FlightEquations.R_earth : ℝ := 6371000.0

/-- Embeds FlightEquations.calculate_derivatives on the 9-dimensional state
[lat, lon, alt, Vx, Vy, Vz, roll, pitch, heading]; the time argument is
accepted and unused, as in the source. -/
noncomputable def calculate_derivatives (state : Fin 9 → ℝ) (_t : ℝ) :
    Fin 9 → ℝ :=
  let lat := state 0
  let alt := state 2
  let v_body : Fin 3 → ℝ := ![state 3, state 4, state 5]
  let roll := state 6
  let pitch := state 7
  let heading := state 8
  let R := get_rotation_matrix roll pitch heading
  let v_earth := R.mulVec v_body
  let lat_scale := 1.0 / (FlightEquations.R_earth + alt)
  let lon_scale := 1.0 / ((FlightEquations.R_earth + alt) * Real.cos lat)
  let d_lat := v_earth 0 * lat_scale
  let d_lon := v_earth 1 * lon_scale
  let d_alt := v_earth 2
  let g_earth : Fin 3 → ℝ := ![0, 0, -FlightEquations.g]
  let d_v_body := R.transpose.mulVec g_earth
  let d_roll := -0.5 * roll
  let d_pitch := -0.3 * pitch
  let v_horiz := Real.sqrt (v_body 0 ^ 2 + v_body 1 ^ 2)
  let d_heading :=
    if v_horiz > 1e-6 then
      let target_heading := arctan2 (v_body 1) (v_body 0)
      let heading_diff := target_heading - heading
      let heading_diff := arctan2 (Real.sin heading_diff) (Real.cos heading_diff)
      0.2 * heading_diff
    else 0
  ![d_lat, d_lon, d_alt,
    d_v_body 0, d_v_body 1, d_v_body 2,
    d_roll, d_pitch, d_heading]

/-! ## RK4 integrator (math/RK4.py, rk4_step) -/

/-- Embeds rk4_step: one classic 4th-order Runge-Kutta step, generic over the
derivative function; numpy elementwise array arithmetic becomes pointwise
operations on `Fin 9 → ℝ`. -/
noncomputable def rk4_step (derivatives : (Fin 9 → ℝ) → ℝ → (Fin 9 → ℝ))
    (state : Fin 9 → ℝ) (dt t : ℝ) : Fin 9 → ℝ :=
  let k1 := derivatives state t
  let k2 := derivatives (state + (dt/2) • k1) (t + dt/2)
  let k3 := derivatives (state + (dt/2) • k2) (t + dt/2)
  let k4 := derivatives (state + dt • k3) (t + dt)
  state + (dt/6) • (k1 + (2:ℝ) • k2 + (2:ℝ) • k3 + k4)

/-! ## Trajectory prediction (math/trajectory_prediction.py) -/

/-- The integration loop of predict_trajectory: runs `n` rk4 steps from
state `s` at time `t`, collecting the successive states in order. -/
noncomputable def predict_go (derivatives : (Fin 9 → ℝ) → ℝ → (Fin 9 → ℝ))
    (dt : ℝ) : ℕ → (Fin 9 → ℝ) → ℝ → List (Fin 9 → ℝ)
  | 0, _, _ => []
  | n + 1, s, t =>
    let s' := rk4_step derivatives s dt t
    s' :: predict_go derivatives dt n s' (t + dt)

/-- Embeds TrajectoryPredictor.predict_trajectory:
`steps = int(prediction_time / dt)` (truncation toward zero; the loop runs
`max steps 0` times, which `Int.toNat` of the floor captures for every sign
of the quotient), the trajectory starting with the initial state and growing
by one point per step.  Generic over the derivative function, which the
source fixes to calculate_derivatives. -/
noncomputable def predict_trajectory
    (derivatives : (Fin 9 → ℝ) → ℝ → (Fin 9 → ℝ))
    (initial_state : Fin 9 → ℝ) (dt prediction_time : ℝ) :
    List (Fin 9 → ℝ) :=
  initial_state :: predict_go derivatives dt (⌊prediction_time / dt⌋).toNat
    initial_state 0

/-! ## Collision check (terrain_checker.py, check_collision) -/

/-- numpy degrees: radians to degrees. -/
noncomputable def degrees (x : ℝ) : ℝ := x * (180 / Real.pi)

/-- The coverage test of check_collision:
`41.81104 <= lat <= 81.47299 and 19.3951 <= lon <= 46.43616`. -/
def in_coverage (lat lon : ℝ) : Prop :=
  41.81104 ≤ lat ∧ lat ≤ 81.47299 ∧ 19.3951 ≤ lon ∧ lon ≤ 46.43616

noncomputable instance (lat lon : ℝ) : Decidable (in_coverage lat lon) := by
  unfold in_coverage; infer_instance

/-- Embeds TerrainChecker.check_collision.  The elevation lookup
(get_elevation, whose result depends on the sqlite tile store) is an oracle
`elev` mapping (lat, lon) in degrees to an optional terrain height; the
clearance is an extended real so that `float('inf')` is `⊤`. -/
noncomputable def check_collision (elev : ℝ → ℝ → Option ℝ)
    (trajectory_point : Fin 9 → ℝ) : Bool × EReal :=
  let lat := degrees (trajectory_point 0)
  let lon := degrees (trajectory_point 1)
  let alt := trajectory_point 2
  if in_coverage lat lon then
    match elev lat lon with
    | none => (false, ⊤)
    | some terrain_height =>
      let distance_to_terrain := alt - terrain_height
      (decide (distance_to_terrain < 0), (distance_to_terrain : EReal))
  else
    (false, ⊤)

/-! ## Heap model of predict_trajectory (for aliasing/frame effects)

To talk about mutation and object identity, the same source loop is modelled
once more with numpy arrays living in an explicit heap: a list of cells, a
reference being an index.  `.copy()` and every numpy arithmetic result
allocate a fresh cell; nothing in the source ever writes to an existing
cell. -/

/-- A heap of numpy arrays: cell `r` of `cells` is the array the reference
`r` points to. -/
structure Heap : Type where
  cells : List (Fin 9 → ℝ)

/-- Dereference: the value stored at reference `r`. -/
def Heap.read (h : Heap) (r : ℕ) : Fin 9 → ℝ := h.cells.getD r (fun _ => 0)

/-- Allocate a fresh cell holding `v`; returns the new heap and the fresh
reference. -/
def Heap.alloc (h : Heap) (v : Fin 9 → ℝ) : Heap × ℕ :=
  (⟨h.cells ++ [v]⟩, h.cells.length)

/-- The loop body of predict_trajectory in the heap model: each iteration
computes `state = rk4_step(...)` (a fresh array, value `s'`) and appends
`state.copy()` (another fresh cell) to the trajectory list of references. -/
noncomputable def predict_loop_heap
    (derivatives : (Fin 9 → ℝ) → ℝ → (Fin 9 → ℝ)) (dt : ℝ) :
    ℕ → Heap → (Fin 9 → ℝ) → ℝ → List ℕ → Heap × List ℕ
  | 0, h, _, _, acc => (h, acc)
  | n + 1, h, s, t, acc =>
    let s' := rk4_step derivatives s dt t
    let p := h.alloc s'
    predict_loop_heap derivatives dt n p.1 s' (t + dt) (acc ++ [p.2])

/-- predict_trajectory in the heap model: the initial state is a reference
`r0` into the heap; `trajectory = [initial_state.copy()]` and
`state = initial_state.copy()` each allocate a fresh cell, then the loop
runs `int(prediction_time / dt)` times.  Returns the final heap and the
list of references making up the trajectory. -/
noncomputable def predict_trajectory_heap
    (derivatives : (Fin 9 → ℝ) → ℝ → (Fin 9 → ℝ))
    (h : Heap) (r0 : ℕ) (dt prediction_time : ℝ) : Heap × List ℕ :=
  let s0 := h.read r0
  let p1 := h.alloc s0
  let p2 := p1.1.alloc s0
  predict_loop_heap derivatives dt (⌊prediction_time / dt⌋).toNat
    p2.1 s0 0 [p1.2]

/-! ## Specification-side statement of the derivative model

For the refinement claim about calculate_derivatives, the derivative vector
is written once more following the specification's words, to be compared
with the embedding of the source above. -/

/-- Wrapping of an angle into (-π, π] via atan2(sin Δ, cos Δ), as the
specification phrases it. -/
noncomputable def wrap_angle (d : ℝ) : ℝ := arctan2 (Real.sin d) (Real.cos d)

/-- The derivative vector as the specification states it:
R = Rz(heading)·Ry(pitch)·Rx(roll) with standard right-handed factors,
v_earth = R·v_body, dLat = v_earth.x/(R_earth+alt),
dLon = v_earth.y/((R_earth+alt)·cos lat), dAlt = v_earth.z,
d v_body = Rᵀ·(0,0,-g), dRoll = -0.5·roll, dPitch = -0.3·pitch, and
dHeading = 0.2·wrap(atan2(Vy,Vx) - heading) when sqrt(Vx²+Vy²) > 1e-6,
else 0. -/
noncomputable def derivatives_spec (state : Fin 9 → ℝ) (_t : ℝ) :
    Fin 9 → ℝ :=
  let lat := state 0
  let alt := state 2
  let Vx := state 3
  let Vy := state 4
  let Vz := state 5
  let roll := state 6
  let pitch := state 7
  let heading := state 8
  let R_x : Matrix (Fin 3) (Fin 3) ℝ :=
    !![1, 0, 0;
       0, Real.cos roll, -Real.sin roll;
       0, Real.sin roll, Real.cos roll]
  let R_y : Matrix (Fin 3) (Fin 3) ℝ :=
    !![Real.cos pitch, 0, Real.sin pitch;
       0, 1, 0;
       -Real.sin pitch, 0, Real.cos pitch]
  let R_z : Matrix (Fin 3) (Fin 3) ℝ :=
    !![Real.cos heading, -Real.sin heading, 0;
       Real.sin heading, Real.cos heading, 0;
       0, 0, 1]
  let R := R_z * R_y * R_x
  let v_earth := R.mulVec ![Vx, Vy, Vz]
  let d_v := R.transpose.mulVec ![0, 0, -FlightEquations.g]
  ![v_earth 0 / (FlightEquations.R_earth + alt),
    v_earth 1 / ((FlightEquations.R_earth + alt) * Real.cos lat),
    v_earth 2,
    d_v 0, d_v 1, d_v 2,
    -0.5 * roll,
    -0.3 * pitch,
    if Real.sqrt (Vx ^ 2 + Vy ^ 2) > 1e-6 then
      0.2 * wrap_angle (arctan2 Vy Vx - heading)
    else 0]

/-! ## Theorems -/

/-- C1: for channel values R, G, B each in [0, 255], get_elevation decodes the
elevation as exactly -10000 + (R·65536 + G·256 + B)·0.1 meters, and at
(R, G, B) = (10, 20, 30) the decoded elevation is exactly 56051.0 meters. -/
theorem elevation_decode_exact (r g b : ℕ)
    (hr : r ≤ 255) (hg : g ≤ 255) (hb : b ≤ 255) :
    decode_elevation r g b =
      -10000 + ((r : ℚ) * 65536 + (g : ℚ) * 256 + (b : ℚ)) * (1/10) ∧
    decode_elevation 10 20 30 = 56051 := by
  constructor
  · unfold decode_elevation
    push_cast
    ring
  · norm_num [decode_elevation]

theorem elevation_decode_exact_witness :
    10 ≤ 255 ∧ 20 ≤ 255 ∧ 30 ≤ 255 ∧
    (decode_elevation 10 20 30 =
        -10000 + ((10 : ℚ) * 65536 + (20 : ℚ) * 256 + (30 : ℚ)) * (1/10) ∧
      decode_elevation 10 20 30 = 56051) :=
  ⟨by decide, by decide, by decide,
    elevation_decode_exact 10 20 30 (by decide) (by decide) (by decide)⟩

/-- C3: get_collision_warning_level maps clearance by the table
(> 1000 ↦ 0, (500, 1000] ↦ 1, (200, 500] ↦ 2, ≤ 200 ↦ 3); in particular the
clearances 1001, 1000, 999, 501, 500, 499, 201, 200, 199, 0, -50 map to
0, 1, 1, 1, 2, 2, 2, 3, 3, 3, 3 respectively. -/
theorem warning_level_table (c : ℚ) :
    (1000 < c → get_collision_warning_level (.finite c) = 0) ∧
    (500 < c → c ≤ 1000 → get_collision_warning_level (.finite c) = 1) ∧
    (200 < c → c ≤ 500 → get_collision_warning_level (.finite c) = 2) ∧
    (c ≤ 200 → get_collision_warning_level (.finite c) = 3) ∧
    List.map (fun q => get_collision_warning_level (.finite q))
        [(1001 : ℚ), 1000, 999, 501, 500, 499, 201, 200, 199, 0, -50] =
      [0, 1, 1, 1, 2, 2, 2, 3, 3, 3, 3] := by
  refine ⟨fun h => ?_, fun h h' => ?_, fun h h' => ?_, fun h => ?_,
    by norm_num [get_collision_warning_level, PyFloat.gtQ]⟩ <;>
    simp only [get_collision_warning_level, PyFloat.gtQ, decide_eq_true_eq] <;>
    split_ifs <;> first | rfl | linarith

theorem warning_level_table_witness :
    (1000 : ℚ) < 1001 ∧ get_collision_warning_level (.finite 1001) = 0 :=
  ⟨by norm_num, ((warning_level_table 1001).1 (by norm_num))⟩

/-- C7: the tile fetch queries the store with the flipped row index
2^zoom - 1 - tileY, keeping tileX and zoom unchanged. -/
theorem tile_fetch_flipped_row {α : Type} (store : ℕ → ℤ → ℤ → Option α)
    (x y : ℤ) (z : ℕ) :
    get_tile_data store x y z = store z x ((2 : ℤ) ^ z - 1 - y) := rfl

/-- C8 (code bug): predict_from_point passes dt = 0.01 to the predictor but
attributes elapsed time i·0.1 to the point at index i when reporting
warnings, so the reported time for index 1 is 1/10, not 1·dt = 1/100. -/
theorem reported_time_ne_index_times_dt :
    reported_warning_time 1 = 1/10 ∧
    (1 : ℚ) * predict_from_point_dt = 1/100 ∧
    reported_warning_time 1 ≠ (1 : ℚ) * predict_from_point_dt := by
  norm_num [reported_warning_time, predict_from_point_dt]

/-- The loop of predict_trajectory appends exactly one point per step. -/
theorem predict_go_length (derivatives : (Fin 9 → ℝ) → ℝ → (Fin 9 → ℝ))
    (dt : ℝ) (n : ℕ) (s : Fin 9 → ℝ) (t : ℝ) :
    (predict_go derivatives dt n s t).length = n := by
  induction n generalizing s t with
  | zero => rfl
  | succ n ih => simp [predict_go, ih]

/-- C2: for dt > 0 and prediction_time T > 0, predict_trajectory returns
exactly ⌊T/dt⌋ + 1 points, and the point at index 0 is the initial state,
unmodified. -/
theorem predict_trajectory_length_head
    (derivatives : (Fin 9 → ℝ) → ℝ → (Fin 9 → ℝ)) (s0 : Fin 9 → ℝ)
    (dt T : ℝ) (hdt : 0 < dt) (hT : 0 < T) :
    ((predict_trajectory derivatives s0 dt T).length : ℤ) = ⌊T / dt⌋ + 1 ∧
    (predict_trajectory derivatives s0 dt T).head? = some s0 := by
  refine ⟨?_, rfl⟩
  have h0 : 0 ≤ ⌊T / dt⌋ := Int.floor_nonneg.mpr (le_of_lt (div_pos hT hdt))
  simp only [predict_trajectory, List.length_cons, predict_go_length]
  push_cast [Int.toNat_of_nonneg h0]
  ring

theorem predict_trajectory_length_head_witness :
    (0 : ℝ) < 1 ∧ (0 : ℝ) < 2 ∧
    (((predict_trajectory (fun s _ => s) (fun _ => (0 : ℝ)) 1 2).length : ℤ) =
        ⌊(2 : ℝ) / 1⌋ + 1 ∧
      (predict_trajectory (fun s _ => s) (fun _ => (0 : ℝ)) 1 2).head? =
        some (fun _ => (0 : ℝ))) :=
  ⟨by norm_num, by norm_num,
    predict_trajectory_length_head (fun s _ => s) (fun _ => (0 : ℝ)) 1 2
      (by norm_num) (by norm_num)⟩

/-- C6: rk4_step returns exactly s + dt/6·(k1 + 2·k2 + 2·k3 + k4) with
k1 = f(s, t), k2 = f(s + dt/2·k1, t + dt/2), k3 = f(s + dt/2·k2, t + dt/2),
k4 = f(s + dt·k3, t + dt). -/
theorem rk4_step_formula (f : (Fin 9 → ℝ) → ℝ → (Fin 9 → ℝ))
    (s : Fin 9 → ℝ) (dt t : ℝ) :
    rk4_step f s dt t =
      s + (dt/6) • (f s t
        + (2:ℝ) • f (s + (dt/2) • f s t) (t + dt/2)
        + (2:ℝ) • f (s + (dt/2) • f (s + (dt/2) • f s t) (t + dt/2))
            (t + dt/2)
        + f (s + dt • f (s + (dt/2) • f (s + (dt/2) • f s t) (t + dt/2))
            (t + dt/2)) (t + dt)) := rfl

/-- C5: calculate_derivatives computes exactly the derivative vector stated
by the specification: R = Rz·Ry·Rx, v_earth = R·v_body, dLat/dLon scaled by
the local radius, dAlt = v_earth.z, d v_body = Rᵀ·(0,0,-g), damped roll and
pitch rates, and heading rate 0.2 times the wrapped heading error when the
horizontal speed exceeds 1e-6, else 0. -/
theorem calculate_derivatives_matches_spec (s : Fin 9 → ℝ) (t : ℝ) :
    calculate_derivatives s t = derivatives_spec s t := by
  unfold calculate_derivatives derivatives_spec get_rotation_matrix wrap_angle
  simp only [Matrix.cons_val_zero, Matrix.cons_val_one, Matrix.head_cons]
  simp only [Matrix.vecCons, Fin.cons_eq_cons]
  refine ⟨?_, ?_⟩ <;>
    norm_num [mul_one_div, div_eq_mul_inv, mul_inv_rev]

/-- C4: for a trajectory point whose coordinates (in degrees) lie outside the
coverage bounding box, and for a point inside it whose elevation lookup
reports unknown, check_collision returns (false, +infinity), whatever the
altitude. -/
theorem check_collision_no_data (elev : ℝ → ℝ → Option ℝ) (p : Fin 9 → ℝ)
    (h : ¬ in_coverage (degrees (p 0)) (degrees (p 1)) ∨
      elev (degrees (p 0)) (degrees (p 1)) = none) :
    check_collision elev p = (false, ⊤) := by
  rcases h with h | h
  · simp only [check_collision]
    rw [if_neg h]
  · simp only [check_collision]
    split_ifs with hc
    · rw [h]
    · rfl

theorem check_collision_no_data_witness :
    ¬ in_coverage (degrees 0) (degrees 0) ∧
    check_collision (fun _ _ => some (5 : ℝ)) (fun _ => (0 : ℝ)) =
      (false, ⊤) := by
  have hnc : ¬ in_coverage (degrees 0) (degrees 0) := by
    intro hcov
    have h1 := hcov.1
    rw [degrees, zero_mul] at h1
    norm_num at h1
  exact ⟨hnc,
    check_collision_no_data (fun _ _ => some (5 : ℝ)) (fun _ => (0 : ℝ))
      (Or.inl hnc)⟩

/-- The loop of the heap model only allocates: the final heap extends the
one it started from. -/
theorem predict_loop_heap_cells
    (derivatives : (Fin 9 → ℝ) → ℝ → (Fin 9 → ℝ)) (dt : ℝ) (n : ℕ) :
    ∀ (h : Heap) (s : Fin 9 → ℝ) (t : ℝ) (acc : List ℕ),
    ∃ l, (predict_loop_heap derivatives dt n h s t acc).1.cells =
      h.cells ++ l := by
  induction n with
  | zero =>
    intro h s t acc
    exact ⟨[], by simp [predict_loop_heap]⟩
  | succ n ih =>
    intro h s t acc
    obtain ⟨l, hl⟩ := ih ⟨h.cells ++ [rk4_step derivatives s dt t]⟩
      (rk4_step derivatives s dt t) (t + dt) (acc ++ [h.cells.length])
    refine ⟨rk4_step derivatives s dt t :: l, ?_⟩
    simp only [predict_loop_heap, Heap.alloc]
    rw [hl]
    simp

/-- The loop of the heap model extends the accumulated reference list on the
right only. -/
theorem predict_loop_heap_refs
    (derivatives : (Fin 9 → ℝ) → ℝ → (Fin 9 → ℝ)) (dt : ℝ) (n : ℕ) :
    ∀ (h : Heap) (s : Fin 9 → ℝ) (t : ℝ) (acc : List ℕ),
    ∃ l, (predict_loop_heap derivatives dt n h s t acc).2 = acc ++ l := by
  induction n with
  | zero =>
    intro h s t acc
    exact ⟨[], by simp [predict_loop_heap]⟩
  | succ n ih =>
    intro h s t acc
    obtain ⟨l, hl⟩ := ih ⟨h.cells ++ [rk4_step derivatives s dt t]⟩
      (rk4_step derivatives s dt t) (t + dt) (acc ++ [h.cells.length])
    refine ⟨h.cells.length :: l, ?_⟩
    simp only [predict_loop_heap, Heap.alloc]
    rw [hl]
    simp

/-- Reading a heap whose cell list is known. -/
theorem heap_read_congr (h' : Heap) (L : List (Fin 9 → ℝ))
    (hc : h'.cells = L) (r : ℕ) :
    h'.read r = L.getD r (fun _ => 0) := by
  unfold Heap.read
  rw [hc]

/-- C9: predict_trajectory never mutates its initial-state array: in the heap
model the cell the initial state lives in holds the same value after the
call, the first trajectory entry is a freshly allocated cell (a different
reference), and that fresh cell holds a copy of the initial state's value. -/
theorem predict_trajectory_no_mutation
    (derivatives : (Fin 9 → ℝ) → ℝ → (Fin 9 → ℝ)) (h : Heap) (r0 : ℕ)
    (dt T : ℝ) (hr : r0 < h.cells.length) :
    (predict_trajectory_heap derivatives h r0 dt T).1.read r0 = h.read r0 ∧
    (predict_trajectory_heap derivatives h r0 dt T).2.head? =
      some h.cells.length ∧
    h.cells.length ≠ r0 ∧
    (predict_trajectory_heap derivatives h r0 dt T).1.read h.cells.length =
      h.read r0 := by
  have hunfold : predict_trajectory_heap derivatives h r0 dt T =
      predict_loop_heap derivatives dt (⌊T / dt⌋).toNat
        ⟨(h.cells ++ [h.read r0]) ++ [h.read r0]⟩ (h.read r0) 0
        [h.cells.length] := by
    simp only [predict_trajectory_heap, Heap.alloc]
  obtain ⟨l, hl⟩ := predict_loop_heap_cells derivatives dt (⌊T / dt⌋).toNat
    ⟨(h.cells ++ [h.read r0]) ++ [h.read r0]⟩ (h.read r0) 0 [h.cells.length]
  obtain ⟨l', hl'⟩ := predict_loop_heap_refs derivatives dt (⌊T / dt⌋).toNat
    ⟨(h.cells ++ [h.read r0]) ++ [h.read r0]⟩ (h.read r0) 0 [h.cells.length]
  rw [hunfold]
  refine ⟨?_, ?_, ne_of_gt hr, ?_⟩
  · rw [heap_read_congr _ _ hl r0]
    dsimp only
    rw [List.append_assoc, List.append_assoc, List.getD_append _ _ _ _ hr]
    rfl
  · rw [hl']
    rfl
  · rw [heap_read_congr _ _ hl h.cells.length]
    dsimp only
    rw [List.append_assoc, List.append_assoc,
      List.getD_append_right _ _ _ _ le_rfl, Nat.sub_self]
    rfl

theorem predict_trajectory_no_mutation_witness :
    0 < (Heap.mk [fun _ => (0 : ℝ)]).cells.length ∧
    ((predict_trajectory_heap (fun s _ => s)
          (Heap.mk [fun _ => (0 : ℝ)]) 0 1 0).1.read 0 =
        (Heap.mk [fun _ => (0 : ℝ)]).read 0 ∧
      (predict_trajectory_heap (fun s _ => s)
          (Heap.mk [fun _ => (0 : ℝ)]) 0 1 0).2.head? =
        some (Heap.mk [fun _ => (0 : ℝ)]).cells.length ∧
      (Heap.mk [fun _ => (0 : ℝ)]).cells.length ≠ 0 ∧
      (predict_trajectory_heap (fun s _ => s)
          (Heap.mk [fun _ => (0 : ℝ)]) 0 1 0).1.read
          (Heap.mk [fun _ => (0 : ℝ)]).cells.length =
        (Heap.mk [fun _ => (0 : ℝ)]).read 0) :=
  ⟨by simp, predict_trajectory_no_mutation (fun s _ => s)
    (Heap.mk [fun _ => (0 : ℝ)]) 0 1 0 (by simp)⟩

/-- C10: get_collision_warning_level is total on every Python float and
always returns one of 0, 1, 2, 3; clearance +inf yields 0 and clearance NaN
yields 3 (every ordered comparison with NaN is false, so the final else
branch is taken). -/
theorem warning_level_total (d : PyFloat) :
    (get_collision_warning_level d = 0 ∨ get_collision_warning_level d = 1 ∨
      get_collision_warning_level d = 2 ∨ get_collision_warning_level d = 3) ∧
    get_collision_warning_level PyFloat.inf = 0 ∧
    get_collision_warning_level PyFloat.nan = 3 := by
  refine ⟨?_, by decide, by decide⟩
  cases d with
  | finite q =>
    simp only [get_collision_warning_level, PyFloat.gtQ]
    split_ifs <;> simp
  | inf => decide
  | ninf => decide
  | nan => decide
